import Mathlib

/-!
# easy_esp: the TCP client example (`examples/client_esp.c`)

A shallow embedding of `tcp_client`.  The function is a `while(1)` loop over
library calls (`socket`, `gethostbyname`, `connect`, `send`, `recv`,
`vTaskDelay`, `shutdown`, `close`) and log statements.  The library is the
environment: it supplies the value every call returns.  The embedding records
each call, with the arguments the code passes and the value the environment
returned, as an event of a trace, and says whether the function has executed a
`return`.

Each library function is called at most once in one pass through the loop
body, so the environment is a family of answers indexed by the pass number:
any environment, however it picks its answers, is described by the answers it
gives in pass 0, 1, 2, ...
-/

namespace EasyEsp

/-! ## Platform constants and helpers used by the source -/

/-- The file-level constant `static const int ip_protocol = 0;`. -/
def ip_protocol : Int := 0

/-- The file-level constant `static const char *TAG = "example";`. -/
def TAG : String := "example"

/-- What the headers of the target platform fix and the source file does not
contain: the byte order of the host, the constants `AF_INET` and `SOCK_STREAM`
of the socket headers, and the FreeRTOS conversion `pdMS_TO_TICKS` from
milliseconds to scheduler ticks. -/
structure Platform where
  littleEndian : Bool
  AF_INET : Int
  SOCK_STREAM : Int
  pdMS_TO_TICKS : Nat → Nat

/-- The bytes a 16-bit value occupies in memory, lowest address first. -/
def memBytes16 (p : Platform) (v : Nat) : List Nat :=
  if p.littleEndian then [v % 256, (v / 256) % 256]
  else [(v / 256) % 256, v % 256]

/-- Modelled from the spec: the library function `htons`, which is not in the
source file, puts a port number into network byte order (the source comments
the call "server port, big endian"): the 16-bit value whose bytes in memory
are the argument in big-endian order.  On a big-endian host it is the identity
on 16 bits, on a little-endian host it swaps the two bytes. -/
def htons (p : Platform) (x : Nat) : Nat :=
  if p.littleEndian then ((x % 256) * 256 + (x / 256) % 256) % 2 ^ 16
  else x % 2 ^ 16

/-- Four bytes of an IPv4 address as they lie in memory, lowest address
first. -/
structure in_addr_bytes where
  b0 : Fin 256
  b1 : Fin 256
  b2 : Fin 256
  b3 : Fin 256
deriving DecidableEq

/-- The 32-bit value a host reads at an address holding four bytes: the
dereference `*(in_addr_t*)ptr`. -/
def load32 (p : Platform) (a : in_addr_bytes) : Nat :=
  if p.littleEndian then
    a.b0.val + 256 * a.b1.val + 256 ^ 2 * a.b2.val + 256 ^ 3 * a.b3.val
  else
    a.b3.val + 256 * a.b2.val + 256 ^ 2 * a.b1.val + 256 ^ 3 * a.b0.val

/-- The bytes a 32-bit value occupies in memory, lowest address first. -/
def memBytes32 (p : Platform) (v : Nat) : List Nat :=
  if p.littleEndian then
    [v % 256, (v / 256) % 256, (v / 256 ^ 2) % 256, (v / 256 ^ 3) % 256]
  else
    [(v / 256 ^ 3) % 256, (v / 256 ^ 2) % 256, (v / 256) % 256, v % 256]

/-- The host entry `struct hostent` as far as the source reads it: the address
list.  A successful `gethostbyname` returns an entry with at least one
address; `h_addr` is the macro for `h_addr_list[0]`. -/
structure hostent where
  h_addr : in_addr_bytes
  h_addr_more : List in_addr_bytes
deriving DecidableEq

/-- The address list `h_addr_list` of a host entry. -/
def hostent.h_addr_list (h : hostent) : List in_addr_bytes :=
  h.h_addr :: h.h_addr_more

/-- The address structure `struct sockaddr_in`, its fields as the values the
host holds in them. -/
structure sockaddr_in where
  sin_family : Int
  sin_port : Nat
  s_addr : Nat
deriving DecidableEq

/-- The C function `strlen`: the number of characters before the first NUL. -/
def strlen (s : String) : Nat :=
  (s.toList.takeWhile (fun c => c.toNat ≠ 0)).length

/-- The request literal assigned to `msg`. -/
def msg : String := "GET / HTTP/1.1\r\nHost: www.google.com\r\n\r\n"

/-- The host name literal assigned to `hostname`. -/
def hostname : String := "google.com"

/-! ## Events and environments -/

/-- One observable action of `tcp_client`: a library call with its arguments
and the value it returned, or a log statement with its level, format and
arguments. -/
inductive Event where
  | socket (domain type protocol : Int) (ret : Int)
  | gethostbyname (name : String) (ret : Option hostent)
  | connect (fd : Int) (addr : sockaddr_in) (ret : Int)
  | send (fd : Int) (data : String) (len : Nat) (flags : Int) (ret : Int)
  | recv (fd : Int) (capacity : Nat) (flags : Int) (ret : Int)
  | vTaskDelay (ticks : Nat)
  | shutdown (fd : Int) (how : Int)
  | close (fd : Int)
  | logE (tag fmt : String) (errno : Option Int)
  | logI (tag fmt : String) (buffer : Option (List Nat))
deriving DecidableEq

/-- The answers of the library in pass `i` of the loop: the values returned by
`socket`, `gethostbyname`, `connect`, `send` and `recv`, the value of `errno`
when the code reads it, and the contents of `buffer` when it is logged. -/
structure Env where
  socket : Nat → Int
  gethostbyname : Nat → Option hostent
  connect : Nat → Int
  send : Nat → Int
  recv : Nat → Int
  errno : Nat → Int
  buffer : Nat → List Nat

/-- The body of the `while(1)` loop of `tcp_client`, pass `i`: the events of
the pass, and `true` when the pass executed a `return`. -/
def loop_body (p : Platform) (env : Env) (i : Nat) : List Event × Bool :=
  let sockfd := env.socket i
  let t1 := [Event.socket p.AF_INET p.SOCK_STREAM ip_protocol sockfd]
  if sockfd < 0 then
    (t1 ++ [Event.logE TAG "Unable to create socket: errno %d" (some (env.errno i))], true)
  else
    let host := env.gethostbyname i
    let t2 := t1 ++ [Event.gethostbyname hostname host]
    match host with
    | none => (t2, true)
    | some h =>
      let address : sockaddr_in :=
        { sin_family := p.AF_INET
          sin_port := htons p 80
          s_addr := load32 p h.h_addr }
      let err := env.connect i
      let t3 := t2 ++ [Event.connect sockfd address err]
      if err ≠ 0 then
        (t3 ++ [Event.logE TAG "Socket unable to connect: errno %d" (some (env.errno i))], true)
      else
        let t4 := t3 ++
          [ Event.logI TAG "Successfully connected" none,
            Event.send sockfd msg (strlen msg) 0 (env.send i),
            Event.recv sockfd 1024 0 (env.recv i),
            Event.logI TAG "Response was: %s\r\n" (some (env.buffer i)),
            Event.vTaskDelay (p.pdMS_TO_TICKS 3000) ]
        if sockfd ≠ -1 then
          (t4 ++
            [ Event.logE TAG "Shutting down socket and restarting..." none,
              Event.shutdown sockfd 0,
              Event.close sockfd ], false)
        else
          (t4, false)

/-- The function `tcp_client`, run for at most `fuel` passes of its loop
starting with pass `i`: the trace so far, and `true` when the function has
returned (`false`: it is about to start pass `i + fuel`). -/
def tcp_client_from (p : Platform) (env : Env) : Nat → Nat → List Event × Bool
  | 0, _ => ([], false)
  | fuel + 1, i =>
    match loop_body p env i with
    | (t, true) => (t, true)
    | (t, false) =>
      let r := tcp_client_from p env fuel (i + 1)
      (t ++ r.1, r.2)

/-- The function `tcp_client` observed for its first `fuel` passes. -/
def tcp_client (p : Platform) (env : Env) (fuel : Nat) : List Event × Bool :=
  tcp_client_from p env fuel 0

/-! ## Sample platforms and environments -/

/-- A little-endian target with the lwIP socket constants and a 100 Hz tick,
as the ESP32 has by default. -/
def esp32 : Platform :=
  { littleEndian := true
    AF_INET := 2
    SOCK_STREAM := 1
    pdMS_TO_TICKS := fun ms => ms * 100 / 1000 }

/-- A host entry with the single address 142.250.80.46. -/
def sampleHost : hostent :=
  { h_addr := { b0 := 142, b1 := 250, b2 := 80, b3 := 46 }, h_addr_more := [] }

/-- An environment in which every call succeeds: handle 3, a resolved host,
the whole request sent and 512 bytes received. -/
def envOk : Env :=
  { socket := fun _ => 3
    gethostbyname := fun _ => some sampleHost
    connect := fun _ => 0
    send := fun _ => 40
    recv := fun _ => 512
    errno := fun _ => 0
    buffer := fun _ => [72, 84, 84, 80] }

/-- An environment in which `socket()` fails with `ENFILE`. -/
def envSocketFail : Env :=
  { envOk with socket := fun _ => -1, errno := fun _ => 23 }

/-- An environment in which the host name does not resolve. -/
def envHostFail : Env :=
  { envOk with gethostbyname := fun _ => none }

/-- An environment in which `connect` fails with `EHOSTUNREACH`. -/
def envConnectFail : Env :=
  { envOk with connect := fun _ => -1, errno := fun _ => 113 }

/-- An environment in which `send` and `recv` fail in every pass. -/
def envTransferFail : Env :=
  { envOk with send := fun _ => -1, recv := fun _ => -1 }

/-- An environment whose first pass succeeds and whose second pass fails to
connect. -/
def envSecondConnectFail : Env :=
  { envOk with connect := fun i => if i = 0 then 0 else -1, errno := fun _ => 113 }

/-! ## Reading a trace -/

/-- Whether an event is a log statement rather than a library call. -/
def Event.isLog : Event → Bool
  | .logE _ _ _ => true
  | .logI _ _ _ => true
  | _ => false

/-- The library calls of a trace, in order: the trace without its log
statements. -/
def calls (t : List Event) : List Event :=
  t.filter (fun e => !e.isLog)

/-- An event without the value that `send` or `recv` returned: what is left
of these two calls is the call and the arguments the code passed. -/
def Event.dropTransferResult : Event → Event
  | .send fd data len flags _ => .send fd data len flags 0
  | .recv fd capacity flags _ => .recv fd capacity flags 0
  | e => e

/-- Whether an event is a `socket()` call that returned a valid handle. -/
def Event.isOpen : Event → Bool
  | .socket _ _ _ ret => decide (0 ≤ ret)
  | _ => false

/-- Whether an event is a `close()` call. -/
def Event.isClose : Event → Bool
  | .close _ => true
  | _ => false

/-- The number of `socket()` calls of a trace that returned a valid handle. -/
def opens (t : List Event) : Nat :=
  t.countP Event.isOpen

/-- The number of `close()` calls of a trace. -/
def closes (t : List Event) : Nat :=
  t.countP Event.isClose

/-- Whether pass `i` of the loop meets one of the three failures that the code
tests for. -/
def fails (env : Env) (i : Nat) : Prop :=
  env.socket i < 0 ∨ env.gethostbyname i = none ∨ env.connect i ≠ 0

instance (env : Env) (i : Nat) : Decidable (fails env i) := by
  unfold fails; infer_instance

/-! ## The four paths through the loop body -/

/-- The pass in which `socket()` fails: the call, the error log, `return`. -/
theorem loop_body_socket_fail (p : Platform) (env : Env) (i : Nat)
    (hs : env.socket i < 0) :
    loop_body p env i =
      ([ Event.socket p.AF_INET p.SOCK_STREAM ip_protocol (env.socket i),
         Event.logE TAG "Unable to create socket: errno %d" (some (env.errno i)) ], true) := by
  simp [loop_body, hs]

/-- The pass in which the resolution fails: `socket()`, `gethostbyname`,
`return`. -/
theorem loop_body_host_fail (p : Platform) (env : Env) (i : Nat)
    (hs : 0 ≤ env.socket i) (hh : env.gethostbyname i = none) :
    loop_body p env i =
      ([ Event.socket p.AF_INET p.SOCK_STREAM ip_protocol (env.socket i),
         Event.gethostbyname hostname none ], true) := by
  have hs' : ¬ env.socket i < 0 := not_lt.mpr hs
  simp [loop_body, hs', hh]

/-- The pass in which `connect` fails: `socket()`, `gethostbyname`, `connect`,
the error log, `return`. -/
theorem loop_body_connect_fail (p : Platform) (env : Env) (i : Nat) (h : hostent)
    (hs : 0 ≤ env.socket i) (hh : env.gethostbyname i = some h)
    (hc : env.connect i ≠ 0) :
    loop_body p env i =
      ([ Event.socket p.AF_INET p.SOCK_STREAM ip_protocol (env.socket i),
         Event.gethostbyname hostname (some h),
         Event.connect (env.socket i)
           { sin_family := p.AF_INET, sin_port := htons p 80, s_addr := load32 p h.h_addr }
           (env.connect i),
         Event.logE TAG "Socket unable to connect: errno %d" (some (env.errno i)) ], true) := by
  have hs' : ¬ env.socket i < 0 := not_lt.mpr hs
  simp [loop_body, hs', hh, hc]

/-- The pass in which the three calls succeed: it runs to the end of the loop
body, through `shutdown` and `close`, and does not return. -/
theorem loop_body_ok (p : Platform) (env : Env) (i : Nat) (h : hostent)
    (hs : 0 ≤ env.socket i) (hh : env.gethostbyname i = some h)
    (hc : env.connect i = 0) :
    loop_body p env i =
      ([ Event.socket p.AF_INET p.SOCK_STREAM ip_protocol (env.socket i),
         Event.gethostbyname hostname (some h),
         Event.connect (env.socket i)
           { sin_family := p.AF_INET, sin_port := htons p 80, s_addr := load32 p h.h_addr } 0,
         Event.logI TAG "Successfully connected" none,
         Event.send (env.socket i) msg (strlen msg) 0 (env.send i),
         Event.recv (env.socket i) 1024 0 (env.recv i),
         Event.logI TAG "Response was: %s\r\n" (some (env.buffer i)),
         Event.vTaskDelay (p.pdMS_TO_TICKS 3000),
         Event.logE TAG "Shutting down socket and restarting..." none,
         Event.shutdown (env.socket i) 0,
         Event.close (env.socket i) ], false) := by
  have hs' : ¬ env.socket i < 0 := not_lt.mpr hs
  have hne : ¬ env.socket i = -1 := by omega
  simp [loop_body, hs', hh, hc, hne]

/-- The loop body returns exactly when the pass meets one of the three
failures. -/
theorem loop_body_returns_iff (p : Platform) (env : Env) (i : Nat) :
    (loop_body p env i).2 = true ↔ fails env i := by
  unfold fails
  by_cases hs : env.socket i < 0
  · simp [loop_body_socket_fail p env i hs, hs]
  · have hs' : 0 ≤ env.socket i := not_lt.mp hs
    cases hh : env.gethostbyname i with
    | none => simp [loop_body_host_fail p env i hs' hh]
    | some h =>
      by_cases hc : env.connect i = 0
      · simp [loop_body_ok p env i h hs' hh hc, hs, hc]
      · simp [loop_body_connect_fail p env i h hs' hh hc, hc]

/-! ## Unfolding the loop -/

/-- A pass that returns ends the run. -/
theorem tcp_client_from_ret (p : Platform) (env : Env) (fuel i : Nat)
    (hb : (loop_body p env i).2 = true) :
    tcp_client_from p env (fuel + 1) i = ((loop_body p env i).1, true) := by
  rcases hlb : loop_body p env i with ⟨t, b⟩
  rw [hlb] at hb
  simp only at hb
  subst hb
  simp [tcp_client_from, hlb]

/-- A pass that does not return is followed by the next pass. -/
theorem tcp_client_from_cont (p : Platform) (env : Env) (fuel i : Nat)
    (hb : (loop_body p env i).2 = false) :
    tcp_client_from p env (fuel + 1) i =
      ((loop_body p env i).1 ++ (tcp_client_from p env fuel (i + 1)).1,
        (tcp_client_from p env fuel (i + 1)).2) := by
  rcases hlb : loop_body p env i with ⟨t, b⟩
  rw [hlb] at hb
  simp only at hb
  subst hb
  simp [tcp_client_from, hlb]

/-- Every pass takes one of the four paths through the loop body. -/
theorem pass_cases (env : Env) (i : Nat) :
    env.socket i < 0 ∨
    (0 ≤ env.socket i ∧ env.gethostbyname i = none) ∨
    (∃ h, 0 ≤ env.socket i ∧ env.gethostbyname i = some h ∧ env.connect i ≠ 0) ∨
    (∃ h, 0 ≤ env.socket i ∧ env.gethostbyname i = some h ∧ env.connect i = 0) := by
  by_cases hs : env.socket i < 0
  · exact Or.inl hs
  · have hs' : 0 ≤ env.socket i := not_lt.mp hs
    cases hh : env.gethostbyname i with
    | none => exact Or.inr (Or.inl ⟨hs', rfl⟩)
    | some h =>
      by_cases hc : env.connect i = 0
      · exact Or.inr (Or.inr (Or.inr ⟨h, hs', rfl, hc⟩))
      · exact Or.inr (Or.inr (Or.inl ⟨h, hs', rfl, hc⟩))

/-- Every event of a trace lies in one pass of the loop: the trace before it
is the trace of `k` passes that did not return followed by the start of pass
`i + k`, and when that pass returns, nothing follows the pass. -/
theorem event_in_pass (p : Platform) (env : Env) (fuel : Nat) :
    ∀ (i : Nat) (l : List Event) (e : Event) (r : List Event),
      (tcp_client_from p env fuel i).1 = l ++ e :: r →
      ∃ k l1 r1 r2,
        (tcp_client_from p env k i).2 = false ∧
        l = (tcp_client_from p env k i).1 ++ l1 ∧
        (loop_body p env (i + k)).1 = l1 ++ e :: r1 ∧
        r = r1 ++ r2 ∧
        ((loop_body p env (i + k)).2 = true →
          r2 = [] ∧ (tcp_client_from p env fuel i).2 = true) := by
  induction fuel with
  | zero =>
    intro i l e r h
    simp [tcp_client_from] at h
  | succ n ih =>
    intro i l e r h
    cases hb : (loop_body p env i).2 with
    | true =>
      rw [tcp_client_from_ret p env n i hb] at h ⊢
      exact ⟨0, l, r, [], rfl, by simp [tcp_client_from], by simpa using h, by simp,
        fun _ => ⟨rfl, rfl⟩⟩
    | false =>
      rw [tcp_client_from_cont p env n i hb] at h ⊢
      simp only at h
      rcases List.append_eq_append_iff.mp h with ⟨a, hl, hrest⟩ | ⟨c, hbody, hrest⟩
      · obtain ⟨k, l1, r1, r2, hk, hl1, hlb, hr, hfin⟩ := ih (i + 1) a e r hrest
        refine ⟨k + 1, l1, r1, r2, ?_, ?_, ?_, hr, ?_⟩
        · rw [tcp_client_from_cont p env k i hb]; exact hk
        · rw [tcp_client_from_cont p env k i hb, hl, hl1]; simp
        · have : i + (k + 1) = i + 1 + k := by omega
          rw [this]; exact hlb
        · have : i + (k + 1) = i + 1 + k := by omega
          rw [this]; exact hfin
      · cases c with
        | nil =>
          simp only [List.nil_append, List.append_nil] at hrest hbody
          obtain ⟨k, l1, r1, r2, hk, hl1, hlb, hr, hfin⟩ := ih (i + 1) [] e r hrest.symm
          refine ⟨k + 1, l1, r1, r2, ?_, ?_, ?_, hr, ?_⟩
          · rw [tcp_client_from_cont p env k i hb]; exact hk
          · rw [tcp_client_from_cont p env k i hb]
            have h1 : (tcp_client_from p env k (i + 1)).1 ++ l1 = [] := hl1.symm
            simp only [List.append_assoc, h1, List.append_nil]
            exact hbody.symm
          · have : i + (k + 1) = i + 1 + k := by omega
            rw [this]; exact hlb
          · have : i + (k + 1) = i + 1 + k := by omega
            rw [this]; exact hfin
        | cons x c =>
          simp only [List.cons_append, List.cons.injEq] at hrest
          obtain ⟨hx, hr⟩ := hrest
          subst hx
          refine ⟨0, l, c, (tcp_client_from p env n (i + 1)).1, rfl, by simp [tcp_client_from],
            by simpa using hbody, hr, ?_⟩
          intro hb'
          simp [hb] at hb'

/-- The same for `tcp_client`, whose first pass is pass 0: an event of the
trace lies in pass `k`, after `k` passes that did not return. -/
theorem event_in_run (p : Platform) (env : Env) (fuel : Nat)
    (l : List Event) (e : Event) (r : List Event)
    (h : (tcp_client p env fuel).1 = l ++ e :: r) :
    ∃ k l1 r1 r2,
      (tcp_client p env k).2 = false ∧
      l = (tcp_client p env k).1 ++ l1 ∧
      (loop_body p env k).1 = l1 ++ e :: r1 ∧
      r = r1 ++ r2 ∧
      ((loop_body p env k).2 = true → r2 = [] ∧ (tcp_client p env fuel).2 = true) := by
  obtain ⟨k, l1, r1, r2, h1, h2, h3, h4, h5⟩ := event_in_pass p env fuel 0 l e r h
  rw [Nat.zero_add] at h3 h5
  exact ⟨k, l1, r1, r2, h1, h2, h3, h4, h5⟩

/-! ## Failure paths -/

/-- C1: when a `socket()` call of `tcp_client` returns a negative handle, the
function returns in that pass, and what follows the failed call in the trace is
the error log alone: no library call (no `gethostbyname`, `connect`, `send`,
`recv`, delay, `shutdown`, `close` or further `socket()`) follows it. -/
theorem socket_failure_returns (p : Platform) (env : Env) (fuel : Nat)
    (l r : List Event) (d t pr ret : Int)
    (htrace : (tcp_client p env fuel).1 = l ++ Event.socket d t pr ret :: r)
    (hret : ret < 0) :
    (tcp_client p env fuel).2 = true ∧
      (∃ errno, r = [Event.logE TAG "Unable to create socket: errno %d" (some errno)]) ∧
      calls r = [] := by
  obtain ⟨k, l1, r1, r2, -, -, hlb, hr, hfin⟩ := event_in_run p env fuel l _ r htrace
  rcases pass_cases env k with hs | ⟨hs, hh⟩ | ⟨h, hs, hh, hc⟩ | ⟨h, hs, hh, hc⟩
  · rw [loop_body_socket_fail p env _ hs] at hlb hfin
    simp [List.cons_eq_append_iff] at hlb hfin
    obtain ⟨-, -, hr1⟩ := hlb
    obtain ⟨hr2, hret⟩ := hfin
    subst hr1 hr2
    subst hr
    exact ⟨hret, ⟨_, rfl⟩, by simp [calls, Event.isLog]⟩
  · rw [loop_body_host_fail p env _ hs hh] at hlb
    simp [List.cons_eq_append_iff] at hlb
    omega
  · rw [loop_body_connect_fail p env _ h hs hh hc] at hlb
    simp [List.cons_eq_append_iff] at hlb
    omega
  · rw [loop_body_ok p env _ h hs hh hc] at hlb
    simp [List.cons_eq_append_iff] at hlb
    omega

/-- Witness of C1: the run in which the first `socket()` call fails. -/
theorem socket_failure_returns_witness :
    (tcp_client esp32 envSocketFail 5).2 = true ∧
      (∃ errno, [Event.logE TAG "Unable to create socket: errno %d" (some 23)] =
        [Event.logE TAG "Unable to create socket: errno %d" (some errno)]) ∧
      calls [Event.logE TAG "Unable to create socket: errno %d" (some 23)] = [] :=
  socket_failure_returns esp32 envSocketFail 5 []
    [Event.logE TAG "Unable to create socket: errno %d" (some 23)]
    esp32.AF_INET esp32.SOCK_STREAM ip_protocol (-1) (by rfl) (by decide)

/-- C2: when `gethostbyname` returns NULL in a pass of `tcp_client`, the pass
consists of the `socket()` call and the failed resolution, the function
returns, and nothing follows the failed resolution in the trace: no `connect`,
`send`, `recv` or second `socket()`. -/
theorem resolution_failure_returns (p : Platform) (env : Env) (fuel : Nat)
    (l r : List Event) (name : String)
    (htrace : (tcp_client p env fuel).1 = l ++ Event.gethostbyname name none :: r) :
    (tcp_client p env fuel).2 = true ∧ r = [] ∧
      ∃ k fd, 0 ≤ fd ∧
        l = (tcp_client p env k).1 ++ [Event.socket p.AF_INET p.SOCK_STREAM ip_protocol fd] := by
  obtain ⟨k, l1, r1, r2, -, hl, hlb, hr, hfin⟩ := event_in_run p env fuel l _ r htrace
  rcases pass_cases env k with hs | ⟨hs, hh⟩ | ⟨h, hs, hh, hc⟩ | ⟨h, hs, hh, hc⟩
  · rw [loop_body_socket_fail p env _ hs] at hlb
    simp [List.cons_eq_append_iff] at hlb
  · rw [loop_body_host_fail p env _ hs hh] at hlb hfin
    simp [List.cons_eq_append_iff] at hlb hfin
    obtain ⟨a, rfl, rfl, -, rfl⟩ := hlb
    obtain ⟨rfl, hret⟩ := hfin
    subst hr
    exact ⟨hret, rfl, k, env.socket k, hs, hl⟩
  · rw [loop_body_connect_fail p env _ h hs hh hc] at hlb
    simp [List.cons_eq_append_iff] at hlb
  · rw [loop_body_ok p env _ h hs hh hc] at hlb
    simp [List.cons_eq_append_iff] at hlb

/-- Witness of C2: the run in which the host name does not resolve. -/
theorem resolution_failure_returns_witness :
    (tcp_client esp32 envHostFail 5).2 = true ∧ ([] : List Event) = [] ∧
      ∃ k fd, 0 ≤ fd ∧
        [Event.socket esp32.AF_INET esp32.SOCK_STREAM ip_protocol 3] =
          (tcp_client esp32 envHostFail k).1 ++
            [Event.socket esp32.AF_INET esp32.SOCK_STREAM ip_protocol fd] :=
  resolution_failure_returns esp32 envHostFail 5
    [Event.socket esp32.AF_INET esp32.SOCK_STREAM ip_protocol 3] [] hostname (by rfl)

/-- C3: when `connect` returns a non-zero code in a pass of `tcp_client`, the
pass consists of the `socket()` call, the resolution, the failed `connect` and
the error log, and the function returns: the error log is all that follows the
failed `connect` (no `send`, `recv`, delay or new `socket()`), and the pass
does not log "Successfully connected". -/
theorem connect_failure_returns (p : Platform) (env : Env) (fuel : Nat)
    (l r : List Event) (fd : Int) (addr : sockaddr_in) (ret : Int)
    (htrace : (tcp_client p env fuel).1 = l ++ Event.connect fd addr ret :: r)
    (hret : ret ≠ 0) :
    (tcp_client p env fuel).2 = true ∧
      (∃ errno, r = [Event.logE TAG "Socket unable to connect: errno %d" (some errno)]) ∧
      calls r = [] ∧
      (∃ k h,
        l = (tcp_client p env k).1 ++
          [ Event.socket p.AF_INET p.SOCK_STREAM ip_protocol fd,
            Event.gethostbyname hostname (some h) ]) ∧
      Event.logI TAG "Successfully connected" none ∉ r := by
  obtain ⟨k, l1, r1, r2, -, hl, hlb, hr, hfin⟩ := event_in_run p env fuel l _ r htrace
  rcases pass_cases env k with hs | ⟨hs, hh⟩ | ⟨h, hs, hh, hc⟩ | ⟨h, hs, hh, hc⟩
  · rw [loop_body_socket_fail p env _ hs] at hlb
    simp [List.cons_eq_append_iff] at hlb
  · rw [loop_body_host_fail p env _ hs hh] at hlb
    simp [List.cons_eq_append_iff] at hlb
  · rw [loop_body_connect_fail p env _ h hs hh hc] at hlb hfin
    simp [List.cons_eq_append_iff] at hlb hfin
    obtain ⟨a, rfl, b, rfl, rfl, ⟨rfl, -, -⟩, rfl⟩ := hlb
    obtain ⟨rfl, hreturned⟩ := hfin
    subst hr
    exact ⟨hreturned, ⟨_, rfl⟩, by simp [calls, Event.isLog], ⟨k, h, hl⟩, by simp⟩
  · rw [loop_body_ok p env _ h hs hh hc] at hlb
    simp [List.cons_eq_append_iff] at hlb
    obtain ⟨a, -, b, -, -, ⟨-, -, h0⟩, -⟩ := hlb
    exact absurd h0 hret

/-- Witness of C3: the run whose second pass fails to connect. -/
theorem connect_failure_returns_witness :
    (tcp_client esp32 envSecondConnectFail 5).2 = true ∧
      (∃ errno, [Event.logE TAG "Socket unable to connect: errno %d" (some 113)] =
        [Event.logE TAG "Socket unable to connect: errno %d" (some errno)]) ∧
      calls [Event.logE TAG "Socket unable to connect: errno %d" (some 113)] = [] ∧
      (∃ k h,
        (tcp_client esp32 envSecondConnectFail 1).1 ++
          [ Event.socket esp32.AF_INET esp32.SOCK_STREAM ip_protocol 3,
            Event.gethostbyname hostname (some sampleHost) ] =
        (tcp_client esp32 envSecondConnectFail k).1 ++
          [ Event.socket esp32.AF_INET esp32.SOCK_STREAM ip_protocol 3,
            Event.gethostbyname hostname (some h) ]) ∧
      Event.logI TAG "Successfully connected" none ∉
        [Event.logE TAG "Socket unable to connect: errno %d" (some 113)] :=
  connect_failure_returns esp32 envSecondConnectFail 5
    ((tcp_client esp32 envSecondConnectFail 1).1 ++
      [ Event.socket esp32.AF_INET esp32.SOCK_STREAM ip_protocol 3,
        Event.gethostbyname hostname (some sampleHost) ])
    [Event.logE TAG "Socket unable to connect: errno %d" (some 113)]
    3 { sin_family := esp32.AF_INET, sin_port := htons esp32 80,
        s_addr := load32 esp32 sampleHost.h_addr } (-1)
    (by rfl) (by decide)

/-! ## The successful pass -/

/-- The trace of `tcp_client` after one more pass: unchanged when the function
has returned, else extended by the events of pass `n`. -/
theorem tcp_client_from_snoc (p : Platform) (env : Env) (n : Nat) :
    ∀ i, tcp_client_from p env (n + 1) i =
      if (tcp_client_from p env n i).2 = true then tcp_client_from p env n i
      else ((tcp_client_from p env n i).1 ++ (loop_body p env (i + n)).1,
            (loop_body p env (i + n)).2) := by
  induction n with
  | zero =>
    intro i
    cases hb : (loop_body p env i).2 with
    | true => rw [tcp_client_from_ret p env 0 i hb]; simp [tcp_client_from, hb]
    | false => rw [tcp_client_from_cont p env 0 i hb]; simp [tcp_client_from, hb]
  | succ n ih =>
    intro i
    cases hb : (loop_body p env i).2 with
    | true =>
      rw [tcp_client_from_ret p env (n + 1) i hb, tcp_client_from_ret p env n i hb]
      simp
    | false =>
      rw [tcp_client_from_cont p env (n + 1) i hb, tcp_client_from_cont p env n i hb,
        ih (i + 1)]
      have hidx : i + 1 + n = i + (n + 1) := by omega
      rw [hidx]
      by_cases hr : (tcp_client_from p env n (i + 1)).2 = true
      · simp [hr]
      · simp [hr]

/-- C4: a pass of `tcp_client` in which `socket()`, `gethostbyname` and
`connect` succeed does not return, and its library calls are exactly, in this
order and once each: `socket(AF_INET, SOCK_STREAM, 0)`, `gethostbyname`,
`connect`, `send` of the fixed literal `msg` (the same in every pass), `recv`
with capacity 1024, the delay of 3000 ms, `shutdown` and `close` of the handle
that `socket()` returned (the guard `sockfd != -1` holds whenever it is
reached).  When the pass is reached, the trace of the function grows by the
events of the pass. -/
theorem successful_pass_trace (p : Platform) (env : Env) (i : Nat) (h : hostent)
    (hreach : (tcp_client p env i).2 = false)
    (hs : 0 ≤ env.socket i) (hh : env.gethostbyname i = some h)
    (hc : env.connect i = 0) :
    (loop_body p env i).2 = false ∧
    calls (loop_body p env i).1 =
      [ Event.socket p.AF_INET p.SOCK_STREAM 0 (env.socket i),
        Event.gethostbyname hostname (some h),
        Event.connect (env.socket i)
          { sin_family := p.AF_INET, sin_port := htons p 80, s_addr := load32 p h.h_addr } 0,
        Event.send (env.socket i) msg (strlen msg) 0 (env.send i),
        Event.recv (env.socket i) 1024 0 (env.recv i),
        Event.vTaskDelay (p.pdMS_TO_TICKS 3000),
        Event.shutdown (env.socket i) 0,
        Event.close (env.socket i) ] ∧
    tcp_client p env (i + 1) =
      ((tcp_client p env i).1 ++ (loop_body p env i).1, false) := by
  have hb := loop_body_ok p env i h hs hh hc
  refine ⟨by rw [hb], ?_, ?_⟩
  · rw [hb]
    simp [calls, Event.isLog, ip_protocol]
  · unfold tcp_client at *
    rw [tcp_client_from_snoc, Nat.zero_add]
    simp [hreach, hb]

/-- Witness of C4: the second pass of the run in which every call succeeds. -/
theorem successful_pass_trace_witness :
    (loop_body esp32 envOk 1).2 = false ∧
    calls (loop_body esp32 envOk 1).1 =
      [ Event.socket esp32.AF_INET esp32.SOCK_STREAM 0 (envOk.socket 1),
        Event.gethostbyname hostname (some sampleHost),
        Event.connect (envOk.socket 1)
          { sin_family := esp32.AF_INET, sin_port := htons esp32 80,
            s_addr := load32 esp32 sampleHost.h_addr } 0,
        Event.send (envOk.socket 1) msg (strlen msg) 0 (envOk.send 1),
        Event.recv (envOk.socket 1) 1024 0 (envOk.recv 1),
        Event.vTaskDelay (esp32.pdMS_TO_TICKS 3000),
        Event.shutdown (envOk.socket 1) 0,
        Event.close (envOk.socket 1) ] ∧
    tcp_client esp32 envOk (1 + 1) =
      ((tcp_client esp32 envOk 1).1 ++ (loop_body esp32 envOk 1).1, false) :=
  successful_pass_trace esp32 envOk 1 sampleHost (by rfl) (by decide) (by rfl) (by rfl)

/-! ## Error logging -/

/-- C5 (evaluation at the failing input): in the run in which the host name
does not resolve, `tcp_client` returns after the `socket()` call and the failed
`gethostbyname` call, and the trace holds no log statement at all: the
resolution failure is not logged. -/
theorem resolution_failure_not_logged :
    tcp_client esp32 envHostFail 5 =
      ([ Event.socket esp32.AF_INET esp32.SOCK_STREAM ip_protocol 3,
         Event.gethostbyname hostname none ], true) ∧
    ∀ e ∈ (tcp_client esp32 envHostFail 5).1, e.isLog = false := by
  refine ⟨by rfl, ?_⟩
  have h : (tcp_client esp32 envHostFail 5).1 =
      [ Event.socket esp32.AF_INET esp32.SOCK_STREAM ip_protocol 3,
        Event.gethostbyname hostname none ] := by rfl
  rw [h]
  intro e he
  simp at he
  rcases he with rfl | rfl <;> rfl

/-! ## The request -/

/-- C6 (counterexample): the run in which every call succeeds sends `msg`
with the byte count `strlen msg`, and that count is 40, not 43. -/
theorem request_length_is_not_43 :
    Event.send 3 msg (strlen msg) 0 40 ∈ (tcp_client esp32 envOk 1).1 ∧
      strlen msg = 40 ∧ strlen msg ≠ 43 := by
  refine ⟨?_, by decide, by decide⟩
  have h : (tcp_client esp32 envOk 1).1 = (loop_body esp32 envOk 0).1 := by rfl
  rw [h, loop_body_ok esp32 envOk 0 sampleHost (by decide) (by rfl) (by rfl)]
  simp [envOk]

/-- C6 (amended): every `send` of `tcp_client` passes the literal `msg` and
the byte count `strlen msg` = 40; the literal is an HTTP/1.1 GET request: the
request line "GET / HTTP/1.1\r\n", the header line "Host: www.google.com\r\n"
and the empty line "\r\n" that ends the header, so that it ends with
"\r\n\r\n". -/
theorem request_is_40_byte_get (p : Platform) (env : Env) (fuel : Nat)
    (fd : Int) (data : String) (len : Nat) (flags ret : Int)
    (hmem : Event.send fd data len flags ret ∈ (tcp_client p env fuel).1) :
    data = msg ∧ len = strlen msg ∧ len = 40 ∧
      data = "GET / HTTP/1.1\r\n" ++ ("Host: " ++ "www.google.com" ++ "\r\n") ++ "\r\n" := by
  obtain ⟨l, r, htrace⟩ := List.append_of_mem hmem
  obtain ⟨k, l1, r1, r2, -, -, hlb, -, -⟩ := event_in_run p env fuel l _ r htrace
  have hlen : strlen msg = 40 := by decide
  have hmsg : msg = "GET / HTTP/1.1\r\n" ++ ("Host: " ++ "www.google.com" ++ "\r\n") ++ "\r\n" := by
    decide
  rcases pass_cases env k with hs | ⟨hs, hh⟩ | ⟨h, hs, hh, hc⟩ | ⟨h, hs, hh, hc⟩
  · rw [loop_body_socket_fail p env _ hs] at hlb
    simp [List.cons_eq_append_iff] at hlb
  · rw [loop_body_host_fail p env _ hs hh] at hlb
    simp [List.cons_eq_append_iff] at hlb
  · rw [loop_body_connect_fail p env _ h hs hh hc] at hlb
    simp [List.cons_eq_append_iff] at hlb
  · rw [loop_body_ok p env _ h hs hh hc] at hlb
    simp [List.cons_eq_append_iff] at hlb
    obtain ⟨_, -, _, -, _, -, _, -, -, ⟨-, hd, hl, -, -⟩, -⟩ := hlb
    exact ⟨hd, hl, hl.trans hlen, hd.trans hmsg⟩

/-- Witness of C6 (amended): the `send` of the run in which every call
succeeds. -/
theorem request_is_40_byte_get_witness :
    msg = msg ∧ strlen msg = strlen msg ∧ strlen msg = 40 ∧
      msg = "GET / HTTP/1.1\r\n" ++ ("Host: " ++ "www.google.com" ++ "\r\n") ++ "\r\n" :=
  request_is_40_byte_get esp32 envOk 1 3 msg (strlen msg) 0 40 (by decide)

/-! ## Sockets opened and closed -/

/-- Sockets opened in a trace made of two parts. -/
theorem opens_append (a b : List Event) : opens (a ++ b) = opens a + opens b := by
  simp [opens, List.countP_append]

/-- Sockets closed in a trace made of two parts. -/
theorem closes_append (a b : List Event) : closes (a ++ b) = closes a + closes b := by
  simp [closes, List.countP_append]

/-- A run that has not returned after `n` passes has opened `n` sockets and
closed `n` sockets. -/
theorem running_balanced (p : Platform) (env : Env) (n : Nat) :
    (tcp_client p env n).2 = false →
      opens (tcp_client p env n).1 = n ∧ closes (tcp_client p env n).1 = n := by
  unfold tcp_client
  induction n with
  | zero => intro _; simp [tcp_client_from, opens, closes]
  | succ n ih =>
    rw [tcp_client_from_snoc, Nat.zero_add]
    by_cases hr : (tcp_client_from p env n 0).2 = true
    · simp [hr]
    · have hr' : (tcp_client_from p env n 0).2 = false := by simpa using hr
      rw [if_neg hr]
      intro hb
      simp only at hb ⊢
      obtain ⟨ho, hc⟩ := ih hr'
      rcases pass_cases env n with hs | ⟨hs, hh⟩ | ⟨h, hs, hh, hc'⟩ | ⟨h, hs, hh, hc'⟩
      · rw [loop_body_socket_fail p env _ hs] at hb; simp at hb
      · rw [loop_body_host_fail p env _ hs hh] at hb; simp at hb
      · rw [loop_body_connect_fail p env _ h hs hh hc'] at hb; simp at hb
      · rw [loop_body_ok p env _ h hs hh hc', opens_append, closes_append, ho, hc]
        simp [opens, closes, Event.isOpen, Event.isClose, hs]

/-- Within one pass, the sockets opened exceed the sockets closed by at most
one, before and after each event, and a `socket()` call is the first event of
its pass. -/
theorem pass_balance (p : Platform) (env : Env) (k : Nat)
    (l1 : List Event) (e : Event) (r1 : List Event)
    (h : (loop_body p env k).1 = l1 ++ e :: r1) :
    opens l1 ≤ closes l1 + 1 ∧ opens (l1 ++ [e]) ≤ closes (l1 ++ [e]) + 1 ∧
      (∀ d t pr ret, e = Event.socket d t pr ret → l1 = []) := by
  rcases pass_cases env k with hs | ⟨hs, hh⟩ | ⟨h', hs, hh, hc⟩ | ⟨h', hs, hh, hc⟩
  · rw [loop_body_socket_fail p env _ hs] at h
    simp [List.cons_eq_append_iff] at h
    casesm* _ ∨ _, ∃ _, _, _ ∧ _ <;> subst_vars <;>
      simp [opens, closes, Event.isOpen, Event.isClose, hs]
  · rw [loop_body_host_fail p env _ hs hh] at h
    simp [List.cons_eq_append_iff] at h
    casesm* _ ∨ _, ∃ _, _, _ ∧ _ <;> subst_vars <;>
      simp [opens, closes, Event.isOpen, Event.isClose, hs]
  · rw [loop_body_connect_fail p env _ h' hs hh hc] at h
    simp [List.cons_eq_append_iff] at h
    casesm* _ ∨ _, ∃ _, _, _ ∧ _ <;> subst_vars <;>
      simp [opens, closes, Event.isOpen, Event.isClose, hs]
  · rw [loop_body_ok p env _ h' hs hh hc] at h
    simp [List.cons_eq_append_iff] at h
    casesm* _ ∨ _, ∃ _, _, _ ∧ _ <;> subst_vars <;>
      simp [opens, closes, Event.isOpen, Event.isClose, hs]

/-- C8: at every point of a run of `tcp_client` (every split of its trace
into what has happened, `l`, and what follows, `r`), the successful `socket()`
calls so far exceed the `close()` calls so far by at most one; and when the
next event is a `socket()` call, every socket opened so far has been closed:
the close of a pass precedes the `socket()` of the next pass. -/
theorem one_connection_at_a_time (p : Platform) (env : Env) (fuel : Nat)
    (l r : List Event) (htrace : (tcp_client p env fuel).1 = l ++ r) :
    opens l ≤ closes l + 1 ∧
      (∀ d t pr ret r', r = Event.socket d t pr ret :: r' → opens l = closes l) := by
  cases r with
  | nil =>
    refine ⟨?_, by simp⟩
    rcases List.eq_nil_or_concat l with rfl | ⟨l', e, rfl⟩
    · simp [opens, closes]
    · have ht : (tcp_client p env fuel).1 = l' ++ e :: [] := by simpa using htrace
      obtain ⟨k, l1, r1, r2, hk, hl, hlb, -, -⟩ := event_in_run p env fuel l' e [] ht
      obtain ⟨ho, hc⟩ := running_balanced p env k hk
      obtain ⟨-, hbal, -⟩ := pass_balance p env k l1 e r1 hlb
      rw [List.concat_eq_append, hl, List.append_assoc, opens_append, closes_append, ho, hc]
      omega
  | cons e r' =>
    obtain ⟨k, l1, r1, r2, hk, hl, hlb, -, -⟩ := event_in_run p env fuel l e r' htrace
    obtain ⟨ho, hc⟩ := running_balanced p env k hk
    obtain ⟨hbal, -, hfirst⟩ := pass_balance p env k l1 e r1 hlb
    refine ⟨?_, ?_⟩
    · rw [hl, opens_append, closes_append, ho, hc]
      omega
    · intro d t pr ret rest heq
      have he : e = Event.socket d t pr ret := (List.cons.inj heq).1
      have hnil := hfirst d t pr ret he
      rw [hl, hnil, List.append_nil, ho, hc]

/-- Witness of C8: the run in which every call succeeds, split between its
first and its second pass. -/
theorem one_connection_at_a_time_witness :
    opens (loop_body esp32 envOk 0).1 ≤ closes (loop_body esp32 envOk 0).1 + 1 ∧
      (∀ d t pr ret r', (loop_body esp32 envOk 1).1 = Event.socket d t pr ret :: r' →
        opens (loop_body esp32 envOk 0).1 = closes (loop_body esp32 envOk 0).1) :=
  one_connection_at_a_time esp32 envOk 2
    (loop_body esp32 envOk 0).1 (loop_body esp32 envOk 1).1 (by rfl)

/-- C9 (evaluation at the failing inputs): in the run in which `connect`
fails, and in the run in which the host name does not resolve, `tcp_client`
returns with one socket opened (handle 3) and no `close` call in its trace:
the handle is not closed on these two paths. -/
theorem socket_not_closed_on_failure :
    ((tcp_client esp32 envConnectFail 5).2 = true ∧
      Event.socket esp32.AF_INET esp32.SOCK_STREAM ip_protocol 3 ∈ (tcp_client esp32 envConnectFail 5).1 ∧
      opens (tcp_client esp32 envConnectFail 5).1 = 1 ∧
      closes (tcp_client esp32 envConnectFail 5).1 = 0) ∧
    ((tcp_client esp32 envHostFail 5).2 = true ∧
      Event.socket esp32.AF_INET esp32.SOCK_STREAM ip_protocol 3 ∈ (tcp_client esp32 envHostFail 5).1 ∧
      opens (tcp_client esp32 envHostFail 5).1 = 1 ∧
      closes (tcp_client esp32 envHostFail 5).1 = 0) := by
  refine ⟨⟨by rfl, by decide, by decide, by decide⟩, ⟨by rfl, by decide, by decide, by decide⟩⟩

/-! ## When the function returns -/

/-- The flag of `tcp_client` after one more pass. -/
theorem returned_succ (p : Platform) (env : Env) (n : Nat) :
    (tcp_client p env (n + 1)).2 = true ↔
      ((tcp_client p env n).2 = true ∨ fails env n) := by
  unfold tcp_client
  rw [tcp_client_from_snoc, Nat.zero_add, ← loop_body_returns_iff p env n]
  by_cases hr : (tcp_client_from p env n 0).2 = true
  · simp [hr]
  · simp [hr]

/-- Within `fuel` passes `tcp_client` has returned exactly when one of the
passes before `fuel` meets a failure. -/
theorem returned_iff (p : Platform) (env : Env) (fuel : Nat) :
    (tcp_client p env fuel).2 = true ↔ ∃ i, i < fuel ∧ fails env i := by
  induction fuel with
  | zero => simp [tcp_client, tcp_client_from]
  | succ n ih =>
    rw [returned_succ, ih]
    constructor
    · rintro (⟨i, hi, hf⟩ | hf)
      · exact ⟨i, by omega, hf⟩
      · exact ⟨n, by omega, hf⟩
    · rintro ⟨i, hi, hf⟩
      by_cases hin : i = n
      · subst hin; exact Or.inr hf
      · exact Or.inl ⟨i, by omega, hf⟩

/-- The events and the outcome of a pass do not depend on what `send` and
`recv` return, but for the two return values recorded with the calls. -/
theorem loop_body_transfer_irrelevant (p : Platform) (env env' : Env) (i : Nat)
    (h1 : env'.socket = env.socket) (h2 : env'.gethostbyname = env.gethostbyname)
    (h3 : env'.connect = env.connect) (h4 : env'.errno = env.errno)
    (h5 : env'.buffer = env.buffer) :
    (loop_body p env' i).2 = (loop_body p env i).2 ∧
      (loop_body p env' i).1.map Event.dropTransferResult =
        (loop_body p env i).1.map Event.dropTransferResult := by
  have e1 : env'.socket i = env.socket i := congrFun h1 i
  have e2 : env'.gethostbyname i = env.gethostbyname i := congrFun h2 i
  have e3 : env'.connect i = env.connect i := congrFun h3 i
  have e4 : env'.errno i = env.errno i := congrFun h4 i
  have e5 : env'.buffer i = env.buffer i := congrFun h5 i
  rcases pass_cases env i with hs | ⟨hs, hh⟩ | ⟨h, hs, hh, hc⟩ | ⟨h, hs, hh, hc⟩
  · rw [loop_body_socket_fail p env i hs,
      loop_body_socket_fail p env' i (by rw [e1]; exact hs), e1, e4]
    exact ⟨rfl, rfl⟩
  · rw [loop_body_host_fail p env i hs hh,
      loop_body_host_fail p env' i (by rw [e1]; exact hs) (by rw [e2]; exact hh), e1]
    exact ⟨rfl, rfl⟩
  · rw [loop_body_connect_fail p env i h hs hh hc,
      loop_body_connect_fail p env' i h (by rw [e1]; exact hs) (by rw [e2]; exact hh)
        (by rw [e3]; exact hc), e1, e3, e4]
    exact ⟨rfl, rfl⟩
  · rw [loop_body_ok p env i h hs hh hc,
      loop_body_ok p env' i h (by rw [e1]; exact hs) (by rw [e2]; exact hh)
        (by rw [e3]; exact hc), e1, e5]
    exact ⟨rfl, by simp [Event.dropTransferResult]⟩

/-- The trace and the outcome of a run do not depend on what `send` and `recv`
return, but for the two return values recorded with the calls. -/
theorem tcp_client_from_transfer_irrelevant (p : Platform) (env env' : Env)
    (h1 : env'.socket = env.socket) (h2 : env'.gethostbyname = env.gethostbyname)
    (h3 : env'.connect = env.connect) (h4 : env'.errno = env.errno)
    (h5 : env'.buffer = env.buffer) (fuel : Nat) :
    ∀ i, (tcp_client_from p env' fuel i).2 = (tcp_client_from p env fuel i).2 ∧
      (tcp_client_from p env' fuel i).1.map Event.dropTransferResult =
        (tcp_client_from p env fuel i).1.map Event.dropTransferResult := by
  induction fuel with
  | zero => intro i; simp [tcp_client_from]
  | succ n ih =>
    intro i
    obtain ⟨hflag, hev⟩ := loop_body_transfer_irrelevant p env env' i h1 h2 h3 h4 h5
    obtain ⟨ihflag, ihev⟩ := ih (i + 1)
    cases hb : (loop_body p env i).2 with
    | true =>
      rw [tcp_client_from_ret p env n i hb, tcp_client_from_ret p env' n i (hflag.trans hb)]
      exact ⟨rfl, hev⟩
    | false =>
      rw [tcp_client_from_cont p env n i hb, tcp_client_from_cont p env' n i (hflag.trans hb)]
      refine ⟨ihflag, ?_⟩
      simp only [List.map_append, hev, ihev]

/-- C10: within `fuel` passes `tcp_client` has returned if and only if, in one
of these passes, `socket()` returned a negative handle, `gethostbyname`
returned NULL or `connect` returned non-zero; what `send` and `recv` return
does not enter: two environments that agree on the three calls return, or keep
running, alike, and two environments that differ only in what `send` and
`recv` return produce the same trace, event for event, but for the two return
values recorded with these calls.  So when the three calls always succeed, for
every `n` the function completes `n` passes, each opening and closing a
socket, is still running, and its next pass runs the whole loop body (through
`send`, `recv`, the response log, the delay, `shutdown` and `close`) without
returning, whatever `send` and `recv` return. -/
theorem returns_iff_some_call_fails (p : Platform) (env : Env) :
    (∀ fuel, (tcp_client p env fuel).2 = true ↔
      ∃ i, i < fuel ∧
        (env.socket i < 0 ∨ env.gethostbyname i = none ∨ env.connect i ≠ 0)) ∧
    (∀ env' : Env, env'.socket = env.socket → env'.gethostbyname = env.gethostbyname →
      env'.connect = env.connect →
      ∀ fuel, (tcp_client p env' fuel).2 = (tcp_client p env fuel).2) ∧
    (∀ env' : Env, env'.socket = env.socket → env'.gethostbyname = env.gethostbyname →
      env'.connect = env.connect → env'.errno = env.errno → env'.buffer = env.buffer →
      ∀ fuel, (tcp_client p env' fuel).1.map Event.dropTransferResult =
        (tcp_client p env fuel).1.map Event.dropTransferResult) ∧
    ((∀ i, 0 ≤ env.socket i ∧ env.gethostbyname i ≠ none ∧ env.connect i = 0) →
      ∀ n, (tcp_client p env n).2 = false ∧
        opens (tcp_client p env n).1 = n ∧ closes (tcp_client p env n).1 = n ∧
        ∃ h, env.gethostbyname n = some h ∧
          tcp_client p env (n + 1) =
            ((tcp_client p env n).1 ++
              [ Event.socket p.AF_INET p.SOCK_STREAM ip_protocol (env.socket n),
                Event.gethostbyname hostname (some h),
                Event.connect (env.socket n)
                  { sin_family := p.AF_INET, sin_port := htons p 80,
                    s_addr := load32 p h.h_addr } 0,
                Event.logI TAG "Successfully connected" none,
                Event.send (env.socket n) msg (strlen msg) 0 (env.send n),
                Event.recv (env.socket n) 1024 0 (env.recv n),
                Event.logI TAG "Response was: %s\r\n" (some (env.buffer n)),
                Event.vTaskDelay (p.pdMS_TO_TICKS 3000),
                Event.logE TAG "Shutting down socket and restarting..." none,
                Event.shutdown (env.socket n) 0,
                Event.close (env.socket n) ], false)) := by
  refine ⟨fun fuel => returned_iff p env fuel, ?_, ?_, ?_⟩
  · intro env' h1 h2 h3 fuel
    rw [Bool.eq_iff_iff, returned_iff, returned_iff]
    simp only [fails, h1, h2, h3]
  · intro env' h1 h2 h3 h4 h5 fuel
    exact (tcp_client_from_transfer_irrelevant p env env' h1 h2 h3 h4 h5 fuel 0).2
  · intro hok n
    have hrun : (tcp_client p env n).2 = false := by
      rw [← Bool.not_eq_true, returned_iff]
      rintro ⟨i, -, hf⟩
      obtain ⟨hs, hh, hc⟩ := hok i
      rcases hf with hf | hf | hf
      · omega
      · exact hh hf
      · exact hf hc
    obtain ⟨ho, hcl⟩ := running_balanced p env n hrun
    refine ⟨hrun, ho, hcl, ?_⟩
    obtain ⟨hs, hh, hc⟩ := hok n
    cases hg : env.gethostbyname n with
    | none => exact absurd hg hh
    | some h =>
      refine ⟨h, rfl, ?_⟩
      have hb := loop_body_ok p env n h hs hg hc
      unfold tcp_client at hrun ⊢
      rw [tcp_client_from_snoc, Nat.zero_add]
      simp [hrun, hb]

/-- Witness of C10: three passes of the run in which `socket()`,
`gethostbyname` and `connect` succeed while `send` and `recv` fail, and its
trace against the trace of the run in which `send` and `recv` succeed. -/
theorem returns_iff_some_call_fails_witness :
    ((tcp_client esp32 envTransferFail 3).2 = false ∧
      opens (tcp_client esp32 envTransferFail 3).1 = 3 ∧
      closes (tcp_client esp32 envTransferFail 3).1 = 3 ∧
      ∃ h, envTransferFail.gethostbyname 3 = some h ∧
        tcp_client esp32 envTransferFail (3 + 1) =
          ((tcp_client esp32 envTransferFail 3).1 ++
            [ Event.socket esp32.AF_INET esp32.SOCK_STREAM ip_protocol (envTransferFail.socket 3),
              Event.gethostbyname hostname (some h),
              Event.connect (envTransferFail.socket 3)
                { sin_family := esp32.AF_INET, sin_port := htons esp32 80,
                  s_addr := load32 esp32 h.h_addr } 0,
              Event.logI TAG "Successfully connected" none,
              Event.send (envTransferFail.socket 3) msg (strlen msg) 0 (envTransferFail.send 3),
              Event.recv (envTransferFail.socket 3) 1024 0 (envTransferFail.recv 3),
              Event.logI TAG "Response was: %s\r\n" (some (envTransferFail.buffer 3)),
              Event.vTaskDelay (esp32.pdMS_TO_TICKS 3000),
              Event.logE TAG "Shutting down socket and restarting..." none,
              Event.shutdown (envTransferFail.socket 3) 0,
              Event.close (envTransferFail.socket 3) ], false)) ∧
    (tcp_client esp32 envTransferFail 3).1.map Event.dropTransferResult =
      (tcp_client esp32 envOk 3).1.map Event.dropTransferResult :=
  ⟨(returns_iff_some_call_fails esp32 envTransferFail).2.2.2
      (fun _ => ⟨(by decide : (0 : Int) ≤ 3), Option.some_ne_none sampleHost, rfl⟩) 3,
    (returns_iff_some_call_fails esp32 envOk).2.2.1 envTransferFail rfl rfl rfl rfl rfl 3⟩

/-! ## The address passed to `connect` -/

/-- Reading four bytes as a 32-bit value and storing the value again leaves
the bytes as they were, in either byte order. -/
theorem memBytes32_load32 (p : Platform) (a : in_addr_bytes) :
    memBytes32 p (load32 p a) = [a.b0.val, a.b1.val, a.b2.val, a.b3.val] := by
  have h0 := a.b0.isLt
  have h1 := a.b1.isLt
  have h2 := a.b2.isLt
  have h3 := a.b3.isLt
  cases hle : p.littleEndian
  · simp only [memBytes32, load32, hle, Bool.false_eq_true, if_false]
    norm_num
    refine ⟨?_, ?_, ?_, ?_⟩ <;> omega
  · simp only [memBytes32, load32, hle, if_true]
    norm_num
    refine ⟨?_, ?_, ?_, ?_⟩ <;> omega

/-- The bytes of `htons(x)` in memory are the big-endian bytes of `x`, in
either byte order of the host. -/
theorem memBytes16_htons (p : Platform) (x : Nat) (hx : x < 2 ^ 16) :
    memBytes16 p (htons p x) = [x / 256, x % 256] := by
  have hx' : x < 65536 := by norm_num at hx; exact hx
  cases hle : p.littleEndian
  · have hv : x % 2 ^ 16 = x := Nat.mod_eq_of_lt hx
    simp only [memBytes16, htons, hle, Bool.false_eq_true, if_false, hv]
    have h1 : x / 256 % 256 = x / 256 := by omega
    rw [h1]
  · have hq : x / 256 % 256 = x / 256 := by omega
    have hpow : (2 : Nat) ^ 16 = 65536 := by norm_num
    have hv : (x % 256 * 256 + x / 256 % 256) % 2 ^ 16 = x % 256 * 256 + x / 256 := by
      rw [hq, hpow]
      omega
    simp only [memBytes16, htons, hle, if_true, hv]
    have h1 : (x % 256 * 256 + x / 256) % 256 = x / 256 := by omega
    have h2 : (x % 256 * 256 + x / 256) / 256 % 256 = x % 256 := by omega
    rw [h1, h2]

/-- C7: every `connect` call of `tcp_client` follows, in its pass, the
`socket()` call and a successful `gethostbyname`, and the address structure it
passes has family `AF_INET`, an address whose four bytes in memory are the
bytes of the first address of the resolved host entry (`h_addr`, the head of
`h_addr_list`), and the port `htons(80)`, whose two bytes in memory are
`[0x00, 0x50]` in either byte order of the host; on a little-endian host the
port field holds the value 0x5000 = 20480. -/
theorem connect_address (p : Platform) (env : Env) (fuel : Nat)
    (l r : List Event) (fd : Int) (addr : sockaddr_in) (ret : Int)
    (htrace : (tcp_client p env fuel).1 = l ++ Event.connect fd addr ret :: r) :
    ∃ k h a,
      l = (tcp_client p env k).1 ++
        [ Event.socket p.AF_INET p.SOCK_STREAM ip_protocol fd,
          Event.gethostbyname hostname (some h) ] ∧
      h.h_addr_list.head? = some a ∧
      addr.sin_family = p.AF_INET ∧
      memBytes32 p addr.s_addr = [a.b0.val, a.b1.val, a.b2.val, a.b3.val] ∧
      addr.sin_port = htons p 80 ∧
      memBytes16 p addr.sin_port = [0x00, 0x50] ∧
      (p.littleEndian = true → addr.sin_port = 0x5000 ∧ addr.sin_port = 20480) := by
  obtain ⟨k, l1, r1, r2, -, hl, hlb, -, -⟩ := event_in_run p env fuel l _ r htrace
  have hport : memBytes16 p (htons p 80) = [0x00, 0x50] :=
    memBytes16_htons p 80 (by norm_num)
  have hle : p.littleEndian = true → htons p 80 = 0x5000 ∧ htons p 80 = 20480 := by
    intro h
    simp [htons, h]
  rcases pass_cases env k with hs | ⟨hs, hh⟩ | ⟨h, hs, hh, hc⟩ | ⟨h, hs, hh, hc⟩
  · rw [loop_body_socket_fail p env _ hs] at hlb
    simp [List.cons_eq_append_iff] at hlb
  · rw [loop_body_host_fail p env _ hs hh] at hlb
    simp [List.cons_eq_append_iff] at hlb
  · rw [loop_body_connect_fail p env _ h hs hh hc] at hlb
    simp [List.cons_eq_append_iff] at hlb
    obtain ⟨a, rfl, b, rfl, rfl, ⟨rfl, rfl, -⟩, -⟩ := hlb
    exact ⟨k, h, h.h_addr, hl, rfl, rfl, memBytes32_load32 p h.h_addr, rfl, hport, hle⟩
  · rw [loop_body_ok p env _ h hs hh hc] at hlb
    simp [List.cons_eq_append_iff] at hlb
    obtain ⟨a, rfl, b, rfl, rfl, ⟨rfl, rfl, -⟩, -⟩ := hlb
    exact ⟨k, h, h.h_addr, hl, rfl, rfl, memBytes32_load32 p h.h_addr, rfl, hport, hle⟩

/-- Witness of C7: the `connect` call of the first pass on the ESP32. -/
theorem connect_address_witness :
    ∃ k h a,
      [ Event.socket esp32.AF_INET esp32.SOCK_STREAM ip_protocol 3,
        Event.gethostbyname hostname (some sampleHost) ] =
        (tcp_client esp32 envOk k).1 ++
          [ Event.socket esp32.AF_INET esp32.SOCK_STREAM ip_protocol 3,
            Event.gethostbyname hostname (some h) ] ∧
      h.h_addr_list.head? = some a ∧
      (2 : Int) = esp32.AF_INET ∧
      memBytes32 esp32 777058958 = [a.b0.val, a.b1.val, a.b2.val, a.b3.val] ∧
      20480 = htons esp32 80 ∧
      memBytes16 esp32 20480 = [0x00, 0x50] ∧
      (esp32.littleEndian = true → 20480 = 0x5000 ∧ 20480 = 20480) :=
  connect_address esp32 envOk 1
    [ Event.socket esp32.AF_INET esp32.SOCK_STREAM ip_protocol 3,
      Event.gethostbyname hostname (some sampleHost) ]
    [ Event.logI TAG "Successfully connected" none,
      Event.send 3 msg 40 0 40,
      Event.recv 3 1024 0 512,
      Event.logI TAG "Response was: %s\r\n" (some [72, 84, 84, 80]),
      Event.vTaskDelay 300,
      Event.logE TAG "Shutting down socket and restarting..." none,
      Event.shutdown 3 0,
      Event.close 3 ]
    3 { sin_family := 2, sin_port := 20480, s_addr := 777058958 } 0 (by rfl)

end EasyEsp
